import Mathlib

/-!
Shallow embedding of `src/NativeMessageHost/MainLoop.cpp` and `MainLoop.h`
from the FireBreath native-message-host bridge.

Modelling conventions:
* `uint32_t` values are `Nat`, with an explicit `% 2^32` where C++ unsigned
  wrap-around matters (`c - 1` and `n - 1` in `parseWyrmholeMessage`).
* The JSON text decoder (`Json::Reader`) is an external library (out of scope
  per the specification); we embed at the `Json::Value` level.  An input that
  fails text-level parsing is modelled as `none : Option JVal`.
* Thrown `std::runtime_error` is `CppOutcome.thrown` carrying the `what()`
  string.  Reaching genuinely undefined behavior — `std::vector::operator[]`
  or `std::deque::pop_front` out of range — is `CppOutcome.ub` / `none`.
* Members that a C++ constructor leaves uninitialized (indeterminate scalar
  values) are supplied explicitly through a `Garbage` record: each such field
  takes an arbitrary value from it.
* The global `msgMap` and the queues of `MainLoop` are threaded explicitly as
  state.
-/

set_option autoImplicit false

namespace FireWyrm

/-- `enum class MessageType` from MainLoop.h line 32. -/
inductive MessageType where
  | UNKNOWN
  | CREATE
  | DESTROY
  | COMMAND
  | RESPONSE
  | ERROR
deriving DecidableEq, Repr

/-- `struct messageInfo` from MainLoop.h lines 36-68.  `msgs` is the
`std::vector<std::string>` of fragments. -/
structure messageInfo where
  colonyId : Nat
  msgId : Nat
  c : Nat
  curC : Nat
  msgs : List String
  type : MessageType
deriving DecidableEq, Repr

/-- Constructor `messageInfo(size_t c, uint32_t msgId)`: zeroes `colonyId` and
`curC`, allocates `c` default-constructed (empty) fragment strings.  The
`type` member is left uninitialized by this constructor; it is only ever
read after being overwritten (in `parseWyrmholeMessage`), so we use a fixed
placeholder. -/
def messageInfo.mkChunked (c : Nat) (msgId : Nat) : messageInfo :=
  { colonyId := 0, msgId := msgId, c := c, curC := 0,
    msgs := List.replicate c "", type := .UNKNOWN }

/-- Indeterminate values for scalar members that a constructor fails to
initialize (`colonyId`, `msgId`, `c`, `curC` of `messageInfo` are plain
scalars with no default member initializer). -/
structure Garbage where
  colonyId : Nat
  msgId : Nat
  c : Nat
  curC : Nat
deriving DecidableEq, Repr

/-- Constructor `messageInfo(MessageType type, std::string msg)` from
MainLoop.h lines 39-41: sets `type` and pushes `msg` as the only fragment,
but leaves `colonyId`, `msgId`, `c` and `curC` uninitialized - they take
indeterminate values, modelled by the `Garbage` argument. -/
def messageInfo.mkTyped (g : Garbage) (type : MessageType) (msg : String) : messageInfo :=
  { colonyId := g.colonyId, msgId := g.msgId, c := g.c, curC := g.curC,
    msgs := [msg], type := type }

/-- `messageInfo::isComplete` from MainLoop.h lines 52-54: `curC >= c`. -/
def messageInfo.isComplete (m : messageInfo) : Bool :=
  m.curC ≥ m.c

/-- `messageInfo::getString` from MainLoop.h lines 56-67: concatenation of all
fragments in index order. -/
def messageInfo.getString (m : messageInfo) : String :=
  m.msgs.foldl (fun out s => out ++ s) ""

/-- A `Json::Value` as far as this code observes one: null, an integral
number, a string, or an object.  `jother` stands for the remaining value
kinds (arrays, booleans, non-integral reals), which the embedded code only
ever queries through `isObject` / `isIntegral` / `asString`. -/
inductive JVal where
  | jnull
  | jnum (n : Nat)
  | jstr (s : String)
  | jobj (fields : List (String × JVal))
  | jother

/-- `Json::Value::isObject`. -/
def JVal.isObject : JVal → Bool
  | .jobj _ => true
  | _ => false

/-- `Json::Value::isIntegral`: true for integral numeric values. -/
def JVal.isIntegral : JVal → Bool
  | .jnum _ => true
  | _ => false

/-- `Json::Value::isMember` on an object (all uses in the source are on a
value already checked to be an object). -/
def JVal.isMember (v : JVal) (key : String) : Bool :=
  match v with
  | .jobj fields => fields.any (fun kv => kv.1 = key)
  | _ => false

/-- `Json::Value::operator[](const char*)` read access: the member value, or
null when absent. -/
def JVal.idx (v : JVal) (key : String) : JVal :=
  match v with
  | .jobj fields =>
    match fields.find? (fun kv => kv.1 = key) with
    | some kv => kv.2
    | none => .jnull
  | _ => .jnull

/-- `Json::Value::get(key, default)`. -/
def JVal.getD (v : JVal) (key : String) (dflt : JVal) : JVal :=
  if v.isMember key then v.idx key else dflt

/-- `Json::Value::asString`.  A null value converts to the empty string; every
call site in the source either checked the kind first or only compares the
result against a literal, so the non-string fallback "" is never
distinguishable from jsoncpp's behavior on the inputs the claims use. -/
def JVal.asString : JVal → String
  | .jstr s => s
  | _ => ""

/-- `Json::Value::asUInt`.  Every claim-relevant call site has checked
`isIntegral` first (or uses a default of an integral value), so only the
`jnum` case is exercised. -/
def JVal.asUInt : JVal → Nat
  | .jnum n => n
  | _ => 0

/-- Outcome of running a piece of C++ that may throw `std::runtime_error`
(`thrown`, carrying the `what()` string) or reach undefined behavior
(`ub`, e.g. an out-of-range `std::vector::operator[]`). -/
inductive CppOutcome (α : Type) where
  | ok (a : α)
  | thrown (msg : String)
  | ub (reason : String)
deriving DecidableEq, Repr

/-- The global `std::map<uint32_t, messageInfo> msgMap` (MainLoop.cpp
line 31), threaded explicitly.  Claims only observe lookups, so an
association list is a faithful model of the map. -/
abbrev MsgMap : Type := List (Nat × messageInfo)

/-- `std::map::find`. -/
def mapFind (m : MsgMap) (k : Nat) : Option messageInfo :=
  match m.find? (fun kv => kv.1 = k) with
  | some kv => some kv.2
  | none => none

/-- `msgMap[msgId] = newMsg` on an absent key: default-construct then assign,
net effect is inserting the binding. -/
def mapInsert (m : MsgMap) (k : Nat) (v : messageInfo) : MsgMap :=
  m ++ [(k, v)]

/-- `getMessageInfo(uint32_t msgId, size_t c)` from MainLoop.cpp lines 33-45:
look up `msgId` in the global map; on a miss insert `messageInfo(c, msgId)`,
on a hit require the stored `c` to match and throw
"Invalid sequence size; sequence size already set" otherwise.  The C++
returns a reference into the map; its only caller immediately copies the
referent, so returning the value together with the updated map is exact. -/
def getMessageInfo (m : MsgMap) (msgId : Nat) (c : Nat) :
    CppOutcome (messageInfo × MsgMap) :=
  match mapFind m msgId with
  | none =>
    let newMsg := messageInfo.mkChunked c msgId
    .ok (newMsg, mapInsert m msgId newMsg)
  | some fnd =>
    if fnd.c ≠ c then
      .thrown "Invalid sequence size; sequence size already set"
    else
      .ok (fnd, m)

/-- `parseCommandMessage` from MainLoop.cpp lines 58-71.  The local
`messageInfo msg;` is default-constructed, leaving its scalar members
indeterminate (taken from `g`); only `type` and `msgs` are then set. -/
def parseCommandMessage (g : Garbage) (root : JVal) : CppOutcome messageInfo :=
  let cmd := (root.idx "cmd").asString
  if cmd = "create" then
    if ¬ root.isMember "mimetype" then
      .thrown "Missing Mimetype"
    else
      .ok { colonyId := g.colonyId, msgId := g.msgId, c := g.c, curC := g.curC,
            msgs := [(root.idx "mimetype").asString], type := .CREATE }
  else
    .thrown "Unknown command"

/-- `2^32`, the modulus of `uint32_t`/`unsigned int` arithmetic. -/
def u32Mod : Nat := 4294967296

/-- `parseWyrmholeMessage` from MainLoop.cpp lines 82-109, including:
* the unsigned wrap-around of `auto n = c-1;` and of
  `root.get("n", 1).asUInt() - 1` (modelled mod `2^32`);
* the call `getMessageInfo(c, cmdId)` on line 103, whose arguments are in
  the opposite order of the declaration `getMessageInfo(uint32_t msgId,
  size_t c)` — the map is keyed by the wire chunk count and the stored
  `c` member receives the wire `cmdId`, exactly as the source does;
* `messageInfo info(getMessageInfo(c, cmdId));` declares a copy, so the
  fragment write and `curC++` mutate the copy, not the map entry;
* `info.msgs[n] = root["msg"].asString();` is `std::vector::operator[]`
  with no bounds check: an out-of-range `n` is undefined behavior (`ub`). -/
def parseWyrmholeMessage (root : JVal) (m : MsgMap) :
    CppOutcome (messageInfo × MsgMap) :=
  if ¬ (root.isMember "c") ∨ ¬ (root.idx "c").isIntegral
      ∨ ¬ (root.isMember "cmdId") ∨ ¬ (root.idx "cmdId").isIntegral then
    .thrown "Invalid message"
  else
    let colonyId := if root.isMember "colonyId" then (root.getD "colonyId" (.jnum 0)).asUInt else 0
    let cmdId := (root.idx "cmdId").asUInt % u32Mod
    let c := (root.getD "c" (.jnum 1)).asUInt % u32Mod
    let n0 := (c + (u32Mod - 1)) % u32Mod
    if c > 1 ∧ (¬ root.isMember "n" ∨ ¬ (root.idx "n").isIntegral) then
      .thrown "Missing sequence id in multi-part message"
    else
      let n := if c > 1 then ((root.getD "n" (.jnum 1)).asUInt % u32Mod + (u32Mod - 1)) % u32Mod else n0
      let type : MessageType :=
        if root.isMember "type" ∧ (root.idx "type").asString = "resp" then .RESPONSE else .COMMAND
      match getMessageInfo m c cmdId with
      | .thrown e => .thrown e
      | .ub e => .ub e
      | .ok (info0, m1) =>
        if n < info0.msgs.length then
          let info : messageInfo :=
            { info0 with
              colonyId := colonyId,
              msgs := info0.msgs.set n (root.idx "msg").asString,
              curC := info0.curC + 1,
              type := type }
          .ok (info, m1)
        else
          .ub "vector subscript out of range"

/-- `parseIncomingMessage` from MainLoop.cpp lines 111-130.  The raw text and
`Json::Reader::parse` are external; an unparseable input is `none`, a parsed
document is `some root`. -/
def parseIncomingMessage (g : Garbage) (command : Option JVal) (m : MsgMap) :
    CppOutcome (messageInfo × MsgMap) :=
  match command with
  | none => .thrown "Invalid json"
  | some root =>
    if ¬ root.isObject then
      .thrown "Invalid message"
    else if root.isMember "cmd" then
      match parseCommandMessage g root with
      | .ok info => .ok (info, m)
      | .thrown e => .thrown e
      | .ub e => .ub e
    else if root.isMember "msg" then
      parseWyrmholeMessage root m
    else
      .thrown "Unknown message"

/-- `MainLoop::messageIn` from MainLoop.cpp lines 132-147: parse; on a thrown
exception build `messageInfo(MessageType::ERROR, e.what())` (whose `c` and
`curC` are uninitialized — the `Garbage` argument); enqueue the message on
`m_messagesIn` only if `isComplete()`.  Returns the new map and queue, or
`none` when the parse reached undefined behavior.  (The source catches by
value, `catch (std::exception e)`, which additionally slices away the
`runtime_error` message; we charitably let `e.what()` keep the thrown
description, since no claim depends on the description surviving.) -/
def messageIn (g : Garbage) (msg : Option JVal) (m : MsgMap)
    (messagesIn : List messageInfo) : Option (MsgMap × List messageInfo) :=
  match parseIncomingMessage g msg m with
  | .ub _ => none
  | .thrown e =>
    let processedMsg := messageInfo.mkTyped g .ERROR e
    if processedMsg.isComplete then some (m, messagesIn ++ [processedMsg])
    else some (m, messagesIn)
  | .ok (processedMsg, m1) =>
    if processedMsg.isComplete then some (m1, messagesIn ++ [processedMsg])
    else some (m1, messagesIn)

/-- Deliver a sequence of raw documents through `MainLoop::messageIn` in
order (the reader thread calls `messageIn` once per received frame). -/
def feedMessages (g : Garbage) (docs : List (Option JVal)) (m : MsgMap)
    (messagesIn : List messageInfo) : Option (MsgMap × List messageInfo) :=
  match docs with
  | [] => some (m, messagesIn)
  | d :: rest =>
    match messageIn g d m messagesIn with
    | none => none
    | some (m1, q1) => feedMessages g rest m1 q1

/-- `FW_RESULT` return code from the FireWyrm ABI header (only the success
constant is produced by the embedded code). -/
inductive FW_RESULT where
  | FW_SUCCESS
  | FW_ERROR
deriving DecidableEq, Repr

/-- `const int maxCommandSize = 768 * 1024;` (MainLoop.cpp line 24). -/
def maxCommandSize : Nat := 768 * 1024

/-- `countChunks(double size) = ceil(size / maxCommandSize)` (MainLoop.cpp
lines 26-28), as exact natural ceiling division.  The source computes it in
`double`; for every `uint32_t` length the quotient is below `2^14`, so the
rounded double quotient lies strictly between the same consecutive integers
as the exact quotient and `ceil` agrees with the exact ceiling. -/
def countChunks (size : Nat) : Nat :=
  (size + (maxCommandSize - 1)) / maxCommandSize

/-- One outbound chunk document as `sendCommand` builds it: the fields of the
JSON `root` at the moment it is serialized and framed. -/
structure Chunk where
  c : Nat
  type : String
  colonyId : Nat
  cmdId : Nat
  n : Nat
  msg : List Char
deriving DecidableEq, Repr

/-- Serialization of an outbound chunk back into a document, for feeding the
emitted frames to the inbound parser (round-trip claims).  Field order in a
JSON object is irrelevant to the parser, which accesses members by name. -/
def Chunk.toDoc (ch : Chunk) : JVal :=
  .jobj [("c", .jnum ch.c), ("type", .jstr ch.type), ("colonyId", .jnum ch.colonyId),
         ("cmdId", .jnum ch.cmdId), ("n", .jnum ch.n), ("msg", .jstr (String.mk ch.msg))]

/-- Conversion of an unsigned value to `int`: the value modulo `2^32`,
reinterpreted in two's complement (values of `2^31` and above become
negative).  Strictly implementation-defined in C++14; two's complement on
every platform this code targets. -/
def toInt32 (n : Nat) : Int :=
  if n % 4294967296 < 2147483648 then ((n % 4294967296 : Nat) : Int)
  else ((n % 4294967296 : Nat) : Int) - 4294967296

/-- The length argument of the per-chunk string construction in `sendCommand`
(MainLoop.cpp line 161): `std::min((int)maxCommandSize, (int)(strCommandLen -
maxCommandSize * i))`, followed by `std::string(const char*, size_t)`.  The
subtraction is performed in `size_t` and never underflows inside the loop
(`i < c` gives `maxCommandSize * i < strCommandLen`); the `(int)` cast wraps
a residual of `2^31` bytes or more to a negative value, `std::min` selects
it, and the negative count converts to a `size_t` beyond the string's
`max_size()`, so the constructor throws `std::length_error` (its `what()`
text is implementation-defined; a fixed description stands for it). -/
def sliceLen (strCommandLen : Nat) (i : Nat) : CppOutcome Nat :=
  let cnt : Int := min (toInt32 maxCommandSize) (toInt32 (strCommandLen - maxCommandSize * i))
  if cnt < 0 then .thrown "basic_string length_error" else .ok cnt.toNat

/-- The emission loop of `sendCommand` over the chunk indices `[0, c)`: for
each `i` build the document with `n = i + 1` and `msg` the `sliceLen`-byte
slice of the payload at offset `maxCommandSize * i`, writing each serialized
document as one frame; a thrown `std::length_error` aborts the loop.  (The
residual length is largest at `i = 0`, so when the string constructor throws
at all it throws on the first iteration, before any frame is written — an
aborted run emits nothing.) -/
def buildChunks (colonyId : Nat) (cmdId : Nat) (strCommand : List Char)
    (strCommandLen : Nat) (type : String) (c : Nat) :
    List Nat → CppOutcome (List Chunk)
  | [] => .ok []
  | i :: rest =>
    match sliceLen strCommandLen i with
    | .thrown e => .thrown e
    | .ub e => .ub e
    | .ok cnt =>
      match buildChunks colonyId cmdId strCommand strCommandLen type c rest with
      | .thrown e => .thrown e
      | .ub e => .ub e
      | .ok chunks =>
        .ok ({ c := c, type := type, colonyId := colonyId, cmdId := cmdId, n := i + 1,
               msg := (strCommand.drop (maxCommandSize * i)).take cnt } :: chunks)

/-- Apply a function on the normal result of a C++ computation; a thrown
exception or undefined behavior propagates unchanged. -/
def CppOutcome.map {α β : Type} (f : α → β) : CppOutcome α → CppOutcome β
  | .ok a => .ok (f a)
  | .thrown e => .thrown e
  | .ub e => .ub e

/-- `sendCommand` from MainLoop.cpp lines 149-169.  The payload is its byte
sequence, modelled as `List Char`; the ABI passes its length as `uint32_t`
(`strCommandLen`), hence the `% 2^32`.  Chunk count `c = countChunks`, then
the emission loop (`buildChunks` over `i ∈ [0, c)`); on normal completion
the emitted chunk sequence is returned with `FW_SUCCESS`, while a
`std::length_error` from a chunk's string construction propagates out and
nothing is returned (for such lengths no frame has been emitted). -/
def sendCommand (colonyId : Nat) (cmdId : Nat) (strCommand : List Char)
    (type : String) : CppOutcome (List Chunk × FW_RESULT) :=
  (buildChunks colonyId cmdId strCommand (strCommand.length % 4294967296) type
      (countChunks (strCommand.length % 4294967296))
      (List.range (countChunks (strCommand.length % 4294967296)))).map
    (fun chunks => (chunks, .FW_SUCCESS))

/-- `doCommand` (MainLoop.cpp lines 171-173): `sendCommand` with type "cmd". -/
def doCommand (colonyId : Nat) (cmdId : Nat) (strCommand : List Char) :
    CppOutcome (List Chunk × FW_RESULT) :=
  sendCommand colonyId cmdId strCommand "cmd"

/-- `doCommandCallback` (MainLoop.cpp lines 175-177): `sendCommand` with type
"resp". -/
def doCommandCallback (colonyId : Nat) (cmdId : Nat) (strResp : List Char) :
    CppOutcome (List Chunk × FW_RESULT) :=
  sendCommand colonyId cmdId strResp "resp"

/-- `MainLoop::AsyncCall` (MainLoop.h lines 73-78): an opaque callback pointer
plus opaque data, both modelled as identifiers. -/
structure AsyncCall where
  fn : Nat
  pData : Nat
deriving DecidableEq, Repr

/-- The observable effects of one iteration of the body of `MainLoop::run`
(MainLoop.cpp lines 213-233), in a state where the loop is awake and
`m_needsToExit` is false. -/
structure IterEffects where
  asyncCalls : List AsyncCall
  messagesIn : List messageInfo
  invoked : List AsyncCall
  dispatched : List messageInfo
deriving DecidableEq, Repr

/-- One iteration of the work-processing body of `MainLoop::run`
(MainLoop.cpp lines 213-233):
* if `m_AsyncCalls` is nonempty, pop its front and invoke it (`invoked`);
* if `m_messagesIn` is nonempty, read its front into `message`, then
  execute `m_AsyncCalls.pop_front();` (line 228 — the pop is performed on
  the async-call deque, not on `m_messagesIn`), and dispatch `message`
  (`dispatched`).  `std::deque::pop_front` on an empty deque is undefined
  behavior (`none`). -/
def runIteration (asyncCalls : List AsyncCall) (messagesIn : List messageInfo) :
    Option IterEffects :=
  let step1 : List AsyncCall × List AsyncCall :=
    match asyncCalls with
    | [] => ([], [])
    | cFront :: rest => (rest, [cFront])
  match messagesIn with
  | [] => some { asyncCalls := step1.1, messagesIn := messagesIn,
                 invoked := step1.2, dispatched := [] }
  | message :: _ =>
    match step1.1 with
    | [] => none
    | _ :: rest2 => some { asyncCalls := rest2, messagesIn := messagesIn,
                           invoked := step1.2, dispatched := [message] }

/-- One observable host-side action performed by `processBrowserMessage`:
an acknowledgment written back to the browser (`writeObj` with its string
map contents), a call into the loaded plugin's inbound-call entry point
(`m_hFuncs.call`), or into its callback entry point
(`m_hFuncs.cmdCallback`). -/
inductive HostAction where
  | writeObj (fields : List (String × String))
  | callPlugin (colonyId : Nat) (msgId : Nat) (payload : String)
  | callbackPlugin (colonyId : Nat) (msgId : Nat) (payload : String)
deriving DecidableEq, Repr

/-- The external plugin loader contract collapsed to its observable result:
`PluginLoader::LoadPlugin(mimetype)` followed by `Init(&m_hFuncs, &m_cFuncs)`
and `getPluginName()`, yielding the plugin's name on success or the thrown
exception's description on load/initialization failure. -/
def LoaderModel : Type := String → Except String String

/-- `MainLoop::processBrowserMessage` from MainLoop.cpp lines 250-273,
branch for branch:
* `MessageType::ERROR` → error acknowledgment carrying `msgs[0]`;
* `else if (message.type == MessageType::COMMAND)` (line 253) → load the
  plugin from `msgs[0]`, initialize, success acknowledgment with its name,
  or error acknowledgment on a thrown load/init failure;
* otherwise: the inner `if (message.type == MessageType::COMMAND)`
  (line 263, unreachable after the branch above) would forward to
  `m_hFuncs.call`; `MessageType::RESPONSE` forwards `(colonyId, msgId,
  getString)` to `m_hFuncs.cmdCallback`; anything else gets an
  "Unknown message" error acknowledgment.
`message.msgs[0]` is an unchecked `std::vector::operator[]`; on an empty
fragment vector it is undefined behavior (`none`). -/
def processBrowserMessage (loader : LoaderModel) (message : messageInfo) :
    Option (List HostAction) :=
  if message.type = .ERROR then
    match message.msgs with
    | [] => none
    | m0 :: _ => some [.writeObj [("status", "error"), ("message", m0)]]
  else if message.type = .COMMAND then
    match message.msgs with
    | [] => none
    | m0 :: _ =>
      match loader m0 with
      | .ok name => some [.writeObj [("status", "success"), ("plugin", name)]]
      | .error e => some [.writeObj [("status", "error"), ("message", e)]]
  else
    if message.type = .COMMAND then
      some [.callPlugin message.colonyId message.msgId message.getString]
    else if message.type = .RESPONSE then
      some [.callbackPlugin message.colonyId message.msgId message.getString]
    else
      some [.writeObj [("status", "error"), ("message", "Unknown message")]]

/-- A sample loader standing for a plugin environment in which every load
succeeds, naming the plugin after its mimetype. -/
def sampleLoader : LoaderModel :=
  fun mimetype => .ok (mimetype ++ "-plugin")

/-- Garbage values that happen to be all zero (one possible content of the
uninitialized members). -/
def zeroGarbage : Garbage :=
  { colonyId := 0, msgId := 0, c := 0, curC := 0 }

end FireWyrm

namespace FireWyrm

/-- Claim C9: `parseWyrmholeMessage` writes the fragment at zero-based index
`n-1` without checking it against the declared chunk count; the chunk
document `{c: 2, cmdId: 2, n: 3, msg: "x"}` has `c > 1` and `n > c`, passes
every parser validation, and the fragment write reaches the out-of-range
branch of the vector indexing operation (undefined behavior in the C++). -/
theorem C9_oob_fragment_write_reachable :
    parseIncomingMessage zeroGarbage
        (some (.jobj [("c", .jnum 2), ("cmdId", .jnum 2), ("n", .jnum 3), ("msg", .jstr "x")]))
        []
      = .ub "vector subscript out of range" := by
  decide

/-- Claim C10: for an empty payload, `sendCommand` computes a chunk count of
0, emits no chunk documents, and still returns `FW_SUCCESS` — the empty
message is silently dropped. -/
theorem C10_empty_payload_dropped (colonyId cmdId : Nat) (ty : String) :
    countChunks 0 = 0 ∧ sendCommand colonyId cmdId [] ty = .ok ([], .FW_SUCCESS) := by
  exact ⟨by decide, rfl⟩

/-- Claim C2 counter-evidence: `sendCommand` on payload "a" with `cmdId = 2`
emits a single chunk document, but feeding that chunk back through
`messageIn` (= `parseIncomingMessage`/`parseWyrmholeMessage`) never produces
a complete message at all: the inbound queue stays empty (the map entry,
keyed by the wire chunk count 1 because `getMessageInfo`'s arguments are
swapped, records `c = cmdId = 2` and its `curC` never accumulates because
the parser mutates a copy), so no reassembled text equal to the payload is
ever delivered. -/
theorem C2_round_trip_fails :
    sendCommand 0 2 ['a'] "cmd"
        = .ok ([{ c := 1, type := "cmd", colonyId := 0, cmdId := 2, n := 1, msg := ['a'] }],
               .FW_SUCCESS)
      ∧ feedMessages zeroGarbage
          [some (Chunk.toDoc { c := 1, type := "cmd", colonyId := 0, cmdId := 2, n := 1,
                               msg := ['a'] })] [] []
        = some ([(1, messageInfo.mkChunked 2 1)], []) := by
  constructor
  · decide
  · decide

/-- Claim C3 counter-evidence: from the state with async-call queue
`[a1, a2]` and inbound-message queue `[m]`, one iteration of the body of
`MainLoop::run` removes BOTH elements from the async-call queue (only `a1`
is invoked; `a2` is discarded uninvoked by the `m_AsyncCalls.pop_front()` on
line 228), dispatches `m` while leaving it in the inbound-message queue, and
from the state `[a1]` / `[m]` the same pop on the now-empty async deque is
undefined behavior. -/
theorem C3_run_iteration_diverges :
    runIteration [⟨1, 10⟩, ⟨2, 20⟩]
        [{ colonyId := 0, msgId := 1, c := 1, curC := 1, msgs := ["m"], type := .COMMAND }]
      = some { asyncCalls := [],
               messagesIn := [{ colonyId := 0, msgId := 1, c := 1, curC := 1,
                                msgs := ["m"], type := .COMMAND }],
               invoked := [⟨1, 10⟩],
               dispatched := [{ colonyId := 0, msgId := 1, c := 1, curC := 1,
                                msgs := ["m"], type := .COMMAND }] }
      ∧ runIteration [⟨1, 10⟩]
          [{ colonyId := 0, msgId := 1, c := 1, curC := 1, msgs := ["m"], type := .COMMAND }]
        = none := by
  constructor
  · decide
  · decide

/-- Claim C4 counter-evidence: a single chunk `{c: 2, cmdId: 1, n: 1,
msg: "x"}` — wire-declared chunk count 2, only one distinct fragment index
received — is promoted to the inbound queue as a complete message at once
(the `getMessageInfo` argument swap stores `c = cmdId = 1`, so `curC = 1`
already satisfies `isComplete`). Completeness does not fire exactly at
distinct-index coverage of the declared count. -/
theorem C4_premature_completeness :
    messageIn zeroGarbage
        (some (.jobj [("c", .jnum 2), ("cmdId", .jnum 1), ("n", .jnum 1), ("msg", .jstr "x")]))
        [] []
      = some ([(2, messageInfo.mkChunked 1 2)],
              [{ colonyId := 0, msgId := 2, c := 1, curC := 1, msgs := ["x"],
                 type := .COMMAND }]) := by
  decide

/-- Claim C5 counter-evidence: with the bridge active, a complete
Response-kind message is indeed forwarded to the callback entry point with
`(colonyId, messageId, reassembled payload)`, but a complete Command-kind
message is NOT forwarded to the inbound-call entry point: it falls into the
plugin-loading branch (line 253 tests `COMMAND` where `CREATE` was meant)
and produces an acknowledgment write instead of a forward-call. -/
theorem C5_command_forwarding_diverges :
    processBrowserMessage sampleLoader
        { colonyId := 5, msgId := 7, c := 1, curC := 1, msgs := ["P1"], type := .COMMAND }
      = some [.writeObj [("status", "success"), ("plugin", "P1-plugin")]]
      ∧ processBrowserMessage sampleLoader
          { colonyId := 5, msgId := 8, c := 1, curC := 1, msgs := ["P2"], type := .RESPONSE }
        = some [.callbackPlugin 5 8 "P2"] := by
  constructor
  · decide
  · decide

/-- Claim C1 counter-evidence: the parsed Create message (complete, since the
indeterminate `c`/`curC` here read 0) is dispatched to the "Unknown message"
error acknowledgment — not to the plugin loader — because
`processBrowserMessage` tests `MessageType::COMMAND` on line 253 where
`CREATE` was meant; the dispatch sequence for
`[Create(mime=A), Command(P1), Response(P2)]` is
`[unknown-message error, success-ack(P1 loaded as a mimetype),
forward-callback(P2)]`, not
`[success-with-name(A's plugin), forward-call(P1), forward-callback(P2)]`. -/
theorem C1_create_dispatch_diverges :
    parseIncomingMessage zeroGarbage
        (some (.jobj [("cmd", .jstr "create"), ("mimetype", .jstr "application/x-test")])) []
      = .ok ({ colonyId := 0, msgId := 0, c := 0, curC := 0,
               msgs := ["application/x-test"], type := .CREATE }, [])
      ∧ (messageInfo.isComplete
          { colonyId := 0, msgId := 0, c := 0, curC := 0,
            msgs := ["application/x-test"], type := .CREATE }) = true
      ∧ ([{ colonyId := 0, msgId := 0, c := 0, curC := 0,
            msgs := ["application/x-test"], type := MessageType.CREATE },
          { colonyId := 0, msgId := 7, c := 1, curC := 1, msgs := ["P1"], type := .COMMAND },
          { colonyId := 0, msgId := 8, c := 1, curC := 1, msgs := ["P2"], type := .RESPONSE }].map
            (processBrowserMessage sampleLoader)
          = [some [.writeObj [("status", "error"), ("message", "Unknown message")]],
             some [.writeObj [("status", "success"), ("plugin", "P1-plugin")]],
             some [.callbackPlugin 0 8 "P2"]]) := by
  refine ⟨by decide, by decide, by decide⟩

/-- Claim C6 counter-evidence: on the unparseable input, `messageIn` builds
`messageInfo(MessageType::ERROR, what)` whose `c` and `curC` members are
uninitialized; when that indeterminate memory reads `c = 1, curC = 0` the
error message is not complete and is silently dropped — nothing is enqueued
for dispatch. -/
theorem C6_error_message_dropped :
    messageIn { colonyId := 0, msgId := 0, c := 1, curC := 0 } none [] [] = some ([], [])
      ∧ (messageInfo.mkTyped { colonyId := 0, msgId := 0, c := 1, curC := 0 }
          .ERROR "Invalid json").isComplete = false := by
  constructor
  · decide
  · decide

/-- Claim C7 counter-evidence: after a chunk with `cmdId = 5, c = 2`, a later
chunk for the same `cmdId = 5` declaring `c = 3` parses successfully (no
`SequenceSizeMismatch`): because `getMessageInfo`'s arguments are swapped,
the pending table is keyed by the wire chunk count, so the second chunk
simply creates a fresh entry under key 3 and silently succeeds. -/
theorem C7_size_mismatch_not_detected :
    messageIn zeroGarbage
        (some (.jobj [("c", .jnum 2), ("cmdId", .jnum 5), ("n", .jnum 1), ("msg", .jstr "x")]))
        [] []
      = some ([(2, messageInfo.mkChunked 5 2)], [])
      ∧ parseIncomingMessage zeroGarbage
          (some (.jobj [("c", .jnum 3), ("cmdId", .jnum 5), ("n", .jnum 1), ("msg", .jstr "y")]))
          [(2, messageInfo.mkChunked 5 2)]
        = .ok ({ colonyId := 0, msgId := 3, c := 5, curC := 1,
                 msgs := ["y", "", "", "", ""], type := .COMMAND },
               [(2, messageInfo.mkChunked 5 2), (3, messageInfo.mkChunked 5 3)]) := by
  constructor
  · decide
  · decide

/-- Below `2^31` the `(int)` conversion is the identity. -/
theorem toInt32_eq_of_lt (n : Nat) (h : n < 2147483648) : toInt32 n = (n : Int) := by
  have hm : n % 4294967296 = n := Nat.mod_eq_of_lt (by omega)
  unfold toInt32
  rw [hm]
  simp [h]

/-- For residuals below `2^31` the chunk-length computation does not throw
and yields `min maxCommandSize residual`. -/
theorem sliceLen_eq_of_lt (len i : Nat) (h : len - maxCommandSize * i < 2147483648) :
    sliceLen len i = .ok (min maxCommandSize (len - maxCommandSize * i)) := by
  have h1 := toInt32_eq_of_lt maxCommandSize (by norm_num [maxCommandSize])
  have h2 := toInt32_eq_of_lt _ h
  simp only [sliceLen, h1, h2, ← Nat.cast_min]
  rw [if_neg (not_lt.mpr (Int.natCast_nonneg _)), Int.toNat_natCast]

/-- When the payload length is below `2^31`, every iteration of the emission
loop succeeds, producing one chunk per index. -/
theorem buildChunks_eq_of_lt (colonyId cmdId : Nat) (p : List Char) (ty : String)
    (c len : Nat) (hlen : len < 2147483648) (is : List Nat) :
    buildChunks colonyId cmdId p len ty c is
      = .ok (is.map (fun i =>
          { c := c, type := ty, colonyId := colonyId, cmdId := cmdId, n := i + 1,
            msg := (p.drop (maxCommandSize * i)).take
                     (min maxCommandSize (len - maxCommandSize * i)) })) := by
  induction is with
  | nil => rfl
  | cons i rest ih =>
    rw [buildChunks, sliceLen_eq_of_lt len i (by omega), ih]
    rfl

/-- Below `2^31` bytes, `sendCommand` emits one chunk per index of
`[0, countChunks len)` and returns `FW_SUCCESS`. -/
theorem sendCommand_eq_of_lt (colonyId cmdId : Nat) (p : List Char) (ty : String)
    (h : p.length < 2147483648) :
    sendCommand colonyId cmdId p ty
      = .ok ((List.range (countChunks p.length)).map (fun i =>
          { c := countChunks p.length, type := ty, colonyId := colonyId, cmdId := cmdId,
            n := i + 1,
            msg := (p.drop (maxCommandSize * i)).take
                     (min maxCommandSize (p.length - maxCommandSize * i)) }),
          .FW_SUCCESS) := by
  have hm : p.length % 4294967296 = p.length := Nat.mod_eq_of_lt (by omega)
  have hb := buildChunks_eq_of_lt colonyId cmdId p ty (countChunks p.length) p.length h
      (List.range (countChunks p.length))
  unfold sendCommand
  rw [hm, hb]
  rfl

/-- At payload length exactly `2^31` (a valid `uint32_t` length), the first
iteration's residual is the whole length, the `(int)` cast wraps it
negative, and the string constructor throws: `sendCommand` emits nothing
and propagates `std::length_error`. -/
theorem sendCommand_throws_at_2pow31 (colonyId cmdId : Nat) (p : List Char) (ty : String)
    (h : p.length = 2147483648) :
    sendCommand colonyId cmdId p ty = .thrown "basic_string length_error" := by
  have hm : p.length % 4294967296 = 2147483648 := by rw [h]
  have hc : countChunks 2147483648 = 2731 := by norm_num [countChunks, maxCommandSize]
  have hsl : sliceLen 2147483648 0 = .thrown "basic_string length_error" := by decide
  have h2731 : (2731 : Nat) = 2730 + 1 := by norm_num
  have hb : buildChunks colonyId cmdId p 2147483648 ty 2731 (List.range 2731)
      = .thrown "basic_string length_error" := by
    rw [h2731, List.range_succ_eq_map, buildChunks, hsl]
  unfold sendCommand
  rw [hm, hc, hb]
  rfl

/-- Claim C8 counterexample: at the valid `uint32_t` payload length `2^31`
(the byte list `List.replicate 2147483648 'a'`), `sendCommand` throws
`std::length_error` out of the first chunk's string construction and emits
no chunk documents, although the claim's unrestricted general law demands
`countChunks 2^31 = 2731` emitted chunks. -/
theorem C8_not_universal :
    sendCommand 0 1 (List.replicate 2147483648 'a') "cmd"
        = .thrown "basic_string length_error"
      ∧ countChunks 2147483648 = 2731 :=
  ⟨sendCommand_throws_at_2pow31 0 1 (List.replicate 2147483648 'a') "cmd"
      (by rw [List.length_replicate]),
   by norm_num [countChunks, maxCommandSize]⟩

/-- Claim C8 as amended: `sendCommand` on a payload of `786432*2 + 1` bytes
emits exactly 3 chunk documents in order `n = 1, 2, 3` whose `msg` fields
have lengths 786432, 786432 and 1 and whose concatenation in that order is
the payload; in general, for payloads SHORTER THAN `2^31` bytes it emits
`countChunks = ceil(len/786432)` chunks of at most 786432 bytes each (for
lengths in `[2^31, 2^32)` the `(int)` cast makes the first chunk length
negative and the string constructor throws, emitting nothing — see the
counterexample). -/
theorem C8_oversize_split_amended (colonyId cmdId : Nat) (ty : String) (p : List Char) :
    (p.length < 2147483648 →
      ∃ chunks : List Chunk,
        sendCommand colonyId cmdId p ty = .ok (chunks, .FW_SUCCESS)
          ∧ chunks.length = countChunks p.length
          ∧ ∀ ch ∈ chunks, ch.msg.length ≤ maxCommandSize)
    ∧ (p.length = 786432 * 2 + 1 →
        ∃ chunks : List Chunk,
          sendCommand colonyId cmdId p ty = .ok (chunks, .FW_SUCCESS)
            ∧ chunks.map Chunk.n = [1, 2, 3]
            ∧ chunks.map (fun ch => ch.msg.length) = [786432, 786432, 1]
            ∧ (chunks.map Chunk.msg).flatten = p) := by
  constructor
  · intro h
    refine ⟨_, sendCommand_eq_of_lt colonyId cmdId p ty h, ?_, ?_⟩
    · simp
    · intro ch hch
      simp only [List.mem_map, List.mem_range] at hch
      obtain ⟨i, _, rfl⟩ := hch
      exact le_trans (List.length_take_le _ _) (min_le_left _ _)
  · intro h
    have h31 : p.length < 2147483648 := by omega
    have hc : countChunks p.length = 3 := by simp [countChunks, maxCommandSize, h]
    have hs := sendCommand_eq_of_lt colonyId cmdId p ty h31
    rw [hc, h] at hs
    rw [(by decide : List.range 3 = [0, 1, 2])] at hs
    norm_num [maxCommandSize, Nat.min_def] at hs
    refine ⟨_, hs, ?_, ?_, ?_⟩
    · simp
    · simp only [List.map_cons, List.map_nil, List.length_take, List.length_drop, h,
                 Nat.min_def]
      norm_num
    · simp only [List.map_cons, List.map_nil, List.flatten]
      have h2 : (p.drop 1572864).take 1 = p.drop 1572864 := by
        apply List.take_of_length_le
        rw [List.length_drop, h]
      have h3 : p.drop 1572864 = (p.drop 786432).drop 786432 := by
        rw [List.drop_drop]
      rw [h2, List.append_nil, h3, List.take_append_drop, List.take_append_drop]

/-- Witness for the amended C8: both hypotheses discharged at the concrete
payload `List.replicate (786432*2 + 1) 'a'`, with both conclusions. -/
theorem C8_oversize_split_amended_witness :
    ((List.replicate (786432 * 2 + 1) 'a').length < 2147483648
      ∧ ∃ chunks : List Chunk,
          sendCommand 0 1 (List.replicate (786432 * 2 + 1) 'a') "cmd"
              = .ok (chunks, .FW_SUCCESS)
            ∧ chunks.length = countChunks (List.replicate (786432 * 2 + 1) 'a').length
            ∧ ∀ ch ∈ chunks, ch.msg.length ≤ maxCommandSize)
    ∧ ((List.replicate (786432 * 2 + 1) 'a').length = 786432 * 2 + 1
      ∧ ∃ chunks : List Chunk,
          sendCommand 0 1 (List.replicate (786432 * 2 + 1) 'a') "cmd"
              = .ok (chunks, .FW_SUCCESS)
            ∧ chunks.map Chunk.n = [1, 2, 3]
            ∧ chunks.map (fun ch => ch.msg.length) = [786432, 786432, 1]
            ∧ (chunks.map Chunk.msg).flatten = List.replicate (786432 * 2 + 1) 'a') :=
  ⟨⟨by rw [List.length_replicate]; norm_num,
    (C8_oversize_split_amended 0 1 "cmd" (List.replicate (786432 * 2 + 1) 'a')).1
      (by rw [List.length_replicate]; norm_num)⟩,
   ⟨by rw [List.length_replicate],
    (C8_oversize_split_amended 0 1 "cmd" (List.replicate (786432 * 2 + 1) 'a')).2
      (by rw [List.length_replicate])⟩⟩

end FireWyrm
